import Mathlib

/-!
# Verification of the entslog logging decorator (godcong/slog-ent)

Shallow embedding of the repository's authoritative code path:
`option.go` (Option, defaultOption, the Setting constructors), the
`makeHandle` variant of `handle.go` (Handler, init of the log / error
closures, `with`, `Filter`, `Log`, `LogError`, `errorLog`, `WithTrace`),
and the first variant of the driver file (`New`, `SlogDriver`, `SlogTx`
and their methods).

Modelling conventions:
* `context.Context` is opaque: `Ctx := Nat`.
* Go `error` is `Err := Option String` (`none` = nil).
* `any` arguments are opaque strings (`GoAny := String`); `slog.Attr`
  values record which Go type was boxed (`AttrVal`).
* A `*slog.Logger` is `Option String` (`none` = nil pointer); emission is
  modelled by returning the `Record`s a call produces, in emission order.
* slog levels are integers: Debug = -4, Info = 0, Warn = 4, Error = 8.
* Go function fields that the repository can leave nil are modelled with
  `Option`; invoking a nil function (a Go panic) makes the surrounding
  operation return `none`.
* `settings.Apply(&defaultOption, ss)` (dependency
  github.com/goexts/generic/settings) applies each setting to the pointed-to
  value in order and returns the same pointer; `New` hands it the address of
  the package-level `defaultOption`, so the package global is mutated.  The
  global is therefore threaded explicitly: `New` takes the current value of
  `defaultOption` and also returns its post-call value.
* In `makeHandle` the Go closures assigned to `h.log` and `h.error` capture
  the local variable `h` by reference.  After `makeHandle` returns, nothing
  ever writes through that reference again (`Handler.with` copies the
  struct), so the capture is equivalent to capturing the final field values
  of that local: its resolved logger, `o.filter`, and `attrs = []` (the
  local's `attrs` is never assigned).  Copies made by `Handler.with` keep
  these closures, so the closures never see the copy's own `attrs` field.
  The closures also read `o.level` / `o.errorLevel` through the pointer
  `o`; they are captured here by value, which is observationally equal for
  every property stated below (no construction intervenes between building
  a handler and the calls a theorem inspects).
-/

namespace Entslog

/-- Opaque model of `context.Context`. -/
abbrev Ctx := Nat

/-- Go `error`: `none` is nil, `some s` a non-nil error with message `s`. -/
abbrev Err := Option String

/-- Opaque model of a Go `any` argument. -/
abbrev GoAny := String

/-- Opaque model of `sql.Result`. -/
abbrev SqlResult := String

/-- Opaque model of `*sql.Rows`. -/
abbrev Rows := String

/-- Opaque model of `*sql.TxOptions` (`none` = nil pointer; never inspected). -/
abbrev TxOptions := Option String

/-- The value of a `slog.Attr`, tagged by the Go type that was boxed:
`slog.String` boxes a string, `slog.Any` boxes an `any` argument, a `[]any`
argument list, or an `error`. -/
inductive AttrVal where
  | str : String → AttrVal
  | any : GoAny → AttrVal
  | list : List GoAny → AttrVal
  | err : String → AttrVal
deriving DecidableEq, Repr

/-- A `slog.Attr` key/value pair. -/
structure Attr where
  key : String
  val : AttrVal
deriving DecidableEq, Repr

/-- One structured record emitted through `logger.LogAttrs`: the logger it
was written to, the level, the message, and the attribute list. -/
structure Record where
  logger : String
  level : Int
  msg : String
  attrs : List Attr
deriving DecidableEq, Repr

/-- `FilterAttrs` from option.go: `func(context.Context, ...slog.Attr) []slog.Attr`. -/
abbrev FilterAttrs := Ctx → List Attr → List Attr

/-- `TraceFunc` from option.go: `func(context.Context) string`. -/
abbrev TraceFunc := Ctx → String

/-- `Option` from option.go (named `Opt` here because `Option` is taken by
Lean's core type).  `logger` is the nilable `*slog.Logger`. -/
structure Opt where
  handleError : Bool
  logger : Option String
  level : Int
  errorLevel : Int
  trace : TraceFunc
  filter : FilterAttrs

/-- `Setting = func(*Option)` from option.go, as a state transformer. -/
abbrev Setting := Opt → Opt

/-- `emptyFilter` from option.go: returns the attributes unchanged. -/
def emptyFilter : FilterAttrs := fun _ attrs => attrs

/-- `traceUUID` from option.go draws a fresh random UUID
(`uuid.Must(uuid.NewRandom()).String()`) and ignores the context.  The
randomness is outside a pure embedding; the function is modelled as some
fixed canonical UUID string.  Every property below depends only on which
function the `trace` field points to, never on the string's distribution. -/
def traceUUID : TraceFunc := fun _ => "3f2c9a10-5b7d-4e21-9c48-1d6f0a8b2e55"

/-- `defaultOption` from option.go: the initial value of the package-level
default configuration variable. -/
def defaultOption : Opt where
  handleError := true
  logger := some "default"
  level := 0
  errorLevel := 8
  trace := traceUUID
  filter := emptyFilter

/-- `WithDefaultLevel` from option.go. -/
def WithDefaultLevel (level : Int) : Setting :=
  fun o => { o with level := level }

/-- `WithErrorLevel` from option.go: sets the error level and also turns
error handling on. -/
def WithErrorLevel (level : Int) : Setting :=
  fun o => { o with errorLevel := level, handleError := true }

/-- `WithError` from option.go: takes no argument and sets
`handleError := true` (its own doc comment describes a boolean parameter
that the implementation does not have). -/
def WithError : Setting :=
  fun o => { o with handleError := true }

/-- `WithFilter` from option.go. -/
def WithFilter (filter : FilterAttrs) : Setting :=
  fun o => { o with filter := filter }

/-- `WithTrace` from option.go. -/
def WithTrace (trace : TraceFunc) : Setting :=
  fun o => { o with trace := trace }

/-- `WithLogger` from option.go. -/
def WithLogger (logger : Option String) : Setting :=
  fun o => { o with logger := logger }

/-- `settings.Apply(o, ss)` from the goexts/generic dependency: applies the
settings to the pointed-to option in order (later settings see — and win
over — the effect of earlier ones) and returns the resulting value of the
pointed-to option. -/
def settingsApply (o : Opt) (ss : List Setting) : Opt :=
  ss.foldl (fun acc s => s acc) o

/-- `Handler` from handle.go.  `log` and `error` are the closure-valued
fields; `error` is kept nilable (`none` = nil Go function, calling it
panics) because the repository's own code distinguishes whether it was
assigned.  The `log` field is also nilable in Go but every construction in
the repository assigns it, and no claim concerns its nil-ness, so it is
modelled total.  A `log` call emits exactly one record; an `error` call
emits zero or one records and returns the error. -/
structure Handler where
  logger : String
  filter : FilterAttrs
  trace : TraceFunc
  log : Ctx → String → List Attr → Record
  error : Option (Ctx → String → Err → (List Record × Err))
  attrs : List Attr

/-- `Handler.with` from handle.go (named `withAttrs`, `with` being a Lean
keyword): copies the handler and replaces its `attrs` field with exactly
the given attributes. -/
def Handler.withAttrs (h : Handler) (attrs : List Attr) : Handler :=
  { h with attrs := attrs }

/-- `Handler.WithTrace` from handle.go: invokes the trace function. -/
def Handler.WithTrace (h : Handler) (ctx : Ctx) : String :=
  h.trace ctx

/-- `Handler.Filter` from handle.go:
`h.filter(ctx, slices.Concat(h.attrs, attrs)...)`. -/
def Handler.Filter (h : Handler) (ctx : Ctx) (attrs : List Attr) : List Attr :=
  h.filter ctx (h.attrs ++ attrs)

/-- `Handler.Log` from handle.go: invokes the `log` closure, producing the
emitted record. -/
def Handler.Log (h : Handler) (ctx : Ctx) (msg : String) (attrs : List Attr) : Record :=
  h.log ctx msg attrs

/-- `Handler.LogError` from handle.go: invokes the `error` closure.
`none` models the Go panic of calling a nil function field. -/
def Handler.LogError (h : Handler) (ctx : Ctx) (msg : String) (err : Err) :
    Option (List Record × Err) :=
  h.error.map (fun f => f ctx msg err)

/-- `errorLog` from handle.go: emits nothing and returns the error unchanged. -/
def errorLog : Ctx → String → Err → (List Record × Err) :=
  fun _ _ err => ([], err)

/-- The nil-logger patch at the top of `makeHandle`:
`if o.logger == nil { o.logger = slog.Default() }`.  This writes through
the `*Option` pointer, so it is part of the returned global state. -/
def resolveLogger (o : Opt) : Opt :=
  if o.logger = none then { o with logger := some "default" } else o

/-- `makeHandle` from handle.go.  Returns the constructed handler together
with the post-call value of the pointed-to option (the nil-logger patch
mutates it).  The local `h` captured by the Go closures has
`attrs = []` (never assigned), logger = the resolved logger and
filter = `o.filter`; the closures below are written against exactly those
captured values (see the module comment).  `error` is first assigned the
pass-through `errorLog` in the struct literal and overwritten with the
emitting closure only when `o.handleError` is set. -/
def makeHandle (o : Opt) : Handler × Opt :=
  let o' := resolveLogger o
  let loggerR := o'.logger.getD "default"
  -- `h.Filter(ctx, attrs...)` as seen by the closures: `h.attrs = []`.
  let capturedFilter : FilterAttrs := fun ctx attrs => o'.filter ctx ([] ++ attrs)
  let logFn : Ctx → String → List Attr → Record := fun ctx msg attrs =>
    { logger := loggerR, level := o'.level, msg := msg, attrs := capturedFilter ctx attrs }
  let errFn : Ctx → String → Err → (List Record × Err) := fun ctx msg err =>
    match err with
    | some e =>
        ([{ logger := loggerR, level := o'.errorLevel, msg := msg,
            attrs := capturedFilter ctx [Attr.mk "error" (AttrVal.err e)] }], some e)
    | none => ([], none)
  ({ logger := loggerR
     filter := o'.filter
     trace := o'.trace
     log := logFn
     error := if o'.handleError then some errFn else some errorLog
     attrs := [] }, o')

/-- The wrapped `dialect.Tx` interface value.  Mandatory methods are total
function fields; the optional capabilities (`ExecContext`, `QueryContext`)
are `Option` fields — `none` means the wrapped value does not satisfy the
runtime interface assertion.  The wrapped transaction is modelled as pure:
each method is a fixed function of its arguments. -/
structure Tx where
  exec : Ctx → String → GoAny → GoAny → Err
  query : Ctx → String → GoAny → GoAny → Err
  commit : Err
  rollback : Err
  execContext : Option (Ctx → String → List GoAny → (Option SqlResult × Err))
  queryContext : Option (Ctx → String → List GoAny → (Option Rows × Err))

/-- The wrapped `dialect.Driver` interface value.  `tx` returns the pair a
Go `(dialect.Tx, error)` result is: a nilable transaction and an error.
Optional capabilities (`ExecContext`, `QueryContext`, `BeginTx`) are
`Option` fields as in `Tx`. -/
structure Driver where
  exec : Ctx → String → GoAny → GoAny → Err
  query : Ctx → String → GoAny → GoAny → Err
  tx : Ctx → (Option Tx × Err)
  close : Err
  dialect : String
  execContext : Option (Ctx → String → List GoAny → (Option SqlResult × Err))
  queryContext : Option (Ctx → String → List GoAny → (Option Rows × Err))
  beginTx : Option (Ctx → TxOptions → (Option Tx × Err))

/-- `SlogDriver`: wraps one underlying driver and embeds a `Handler`
(the Go struct embeds `Handler` by value; here it is the `handler` field,
with the promoted methods `d.Log` / `d.LogError` spelled
`d.handler.Log` / `d.handler.LogError`). -/
structure SlogDriver where
  handler : Handler
  dri : Driver

/-- `SlogTx`: wraps one underlying transaction, the handler derived at
transaction start, the transaction logging id, and the retained creation
context.  `tx` is the nilable `dialect.Tx` stored verbatim from the
underlying call. -/
structure SlogTx where
  handler : Handler
  tx : Option Tx
  id : String
  ctx : Ctx

/-- `New` from the driver file:
`opt := settings.Apply(&defaultOption, ss); handle := makeHandle(opt);
return &SlogDriver{dri: dri, Handler: handle.with(slog.String("database", "driver"))}`.
`g` is the current value of the package-level `defaultOption`; the second
component of the result is its value after the call (`settings.Apply` and
`makeHandle`'s nil-logger patch both write through the pointer). -/
def New (g : Opt) (dri : Driver) (ss : List Setting) : SlogDriver × Opt :=
  let opt := settingsApply g ss
  let p := makeHandle opt
  ({ dri := dri, handler := p.1.withAttrs [Attr.mk "database" (AttrVal.str "driver")] }, p.2)

/-- `SlogDriver.Close`: pure delegation, no logging. -/
def SlogDriver.Close (d : SlogDriver) : Err :=
  d.dri.close

/-- `SlogDriver.Dialect`: pure delegation, no logging. -/
def SlogDriver.Dialect (d : SlogDriver) : String :=
  d.dri.dialect

/-- `SlogDriver.Exec`: log the operation name, query and args; delegate;
pass the delegate's error through `LogError`.  The result is the returned
error together with the emitted records in order; `none` models the panic
of a nil `error` closure. -/
def SlogDriver.Exec (d : SlogDriver) (ctx : Ctx) (query : String) (args v : GoAny) :
    Option (Err × List Record) :=
  let lrec := d.handler.Log ctx "Exec"
    [Attr.mk "query" (AttrVal.str query), Attr.mk "args" (AttrVal.any args)]
  (d.handler.LogError ctx "Exec" (d.dri.exec ctx query args v)).map
    (fun p => (p.2, lrec :: p.1))

/-- `SlogDriver.Query`: same pattern as `Exec`. -/
def SlogDriver.Query (d : SlogDriver) (ctx : Ctx) (query : String) (args v : GoAny) :
    Option (Err × List Record) :=
  let lrec := d.handler.Log ctx "Query"
    [Attr.mk "query" (AttrVal.str query), Attr.mk "args" (AttrVal.any args)]
  (d.handler.LogError ctx "Query" (d.dri.query ctx query args v)).map
    (fun p => (p.2, lrec :: p.1))

/-- `SlogDriver.ExecContext`: probe the optional capability; if absent,
return a capability-unsupported error with no records and no delegate
call; if present, log then delegate then `LogError`. -/
def SlogDriver.ExecContext (d : SlogDriver) (ctx : Ctx) (query : String)
    (args : List GoAny) : Option ((Option SqlResult × Err) × List Record) :=
  match d.dri.execContext with
  | none => some ((none, some "Driver.ExecContext is not supported"), [])
  | some drv =>
    let lrec := d.handler.Log ctx "ExecContext"
      [Attr.mk "query" (AttrVal.str query), Attr.mk "args" (AttrVal.list args)]
    let r := drv ctx query args
    (d.handler.LogError ctx "ExecContext" r.2).map
      (fun p => ((r.1, p.2), lrec :: p.1))

/-- `SlogDriver.QueryContext`: same optional-capability pattern as
`ExecContext`. -/
def SlogDriver.QueryContext (d : SlogDriver) (ctx : Ctx) (query : String)
    (args : List GoAny) : Option ((Option Rows × Err) × List Record) :=
  match d.dri.queryContext with
  | none => some ((none, some "Driver.QueryContext is not supported"), [])
  | some drv =>
    let lrec := d.handler.Log ctx "QueryContext"
      [Attr.mk "query" (AttrVal.str query), Attr.mk "args" (AttrVal.list args)]
    let r := drv ctx query args
    (d.handler.LogError ctx "QueryContext" r.2).map
      (fun p => ((r.1, p.2), lrec :: p.1))

/-- `SlogDriver.Tx`: delegate first; on error return it immediately with
no records; on success generate the trace id (the one and only trace
invocation for this transaction), emit the started record, and build the
`SlogTx` carrying the id and the creation context. -/
def SlogDriver.Tx (d : SlogDriver) (ctx : Ctx) :
    (Option SlogTx × Err) × List Record :=
  let r := d.dri.tx ctx
  match r.2 with
  | some e => ((none, some e), [])
  | none =>
    let id := d.handler.WithTrace ctx
    let lrec := d.handler.Log ctx "Tx started" [Attr.mk "id" (AttrVal.str id)]
    ((some { handler := d.handler.withAttrs [Attr.mk "database" (AttrVal.str "tx")],
             tx := r.1, id := id, ctx := ctx }, none), [lrec])

/-- `SlogDriver.BeginTx`: probe the optional capability; if absent return
the capability-unsupported error with no records; if present delegate
first, pass a failure through `LogError`, otherwise generate the trace id,
emit the started record and build the `SlogTx`. -/
def SlogDriver.BeginTx (d : SlogDriver) (ctx : Ctx) (opts : TxOptions) :
    Option ((Option SlogTx × Err) × List Record) :=
  match d.dri.beginTx with
  | none => some ((none, some "Driver.BeginTx is not supported"), [])
  | some drv =>
    let r := drv ctx opts
    match r.2 with
    | some e =>
      (d.handler.LogError ctx "BeginTx" (some e)).map (fun p => ((none, p.2), p.1))
    | none =>
      let id := d.handler.WithTrace ctx
      let lrec := d.handler.Log ctx "BeginTx started" [Attr.mk "id" (AttrVal.str id)]
      some ((some { handler := d.handler.withAttrs [Attr.mk "database" (AttrVal.str "tx")],
                    tx := r.1, id := id, ctx := ctx }, none), [lrec])

/-- `SlogTx.Exec`: log the id, query and args; delegate to the wrapped
transaction; pass the error through `LogError`.  `none` models a panic
(nil wrapped transaction or nil `error` closure). -/
def SlogTx.Exec (d : SlogTx) (ctx : Ctx) (query : String) (args v : GoAny) :
    Option (Err × List Record) :=
  let lrec := d.handler.Log ctx "Exec"
    [Attr.mk "id" (AttrVal.str d.id), Attr.mk "query" (AttrVal.str query),
     Attr.mk "args" (AttrVal.any args)]
  match d.tx with
  | none => none
  | some t =>
    (d.handler.LogError ctx "Exec" (t.exec ctx query args v)).map
      (fun p => (p.2, lrec :: p.1))

/-- `SlogTx.Query`: same pattern as `SlogTx.Exec`. -/
def SlogTx.Query (d : SlogTx) (ctx : Ctx) (query : String) (args v : GoAny) :
    Option (Err × List Record) :=
  let lrec := d.handler.Log ctx "Query"
    [Attr.mk "id" (AttrVal.str d.id), Attr.mk "query" (AttrVal.str query),
     Attr.mk "args" (AttrVal.any args)]
  match d.tx with
  | none => none
  | some t =>
    (d.handler.LogError ctx "Query" (t.query ctx query args v)).map
      (fun p => (p.2, lrec :: p.1))

/-- `SlogTx.ExecContext`: probe the optional capability on the wrapped
transaction; absent yields the capability-unsupported error with no
records; present runs log, delegate, `LogError`. -/
def SlogTx.ExecContext (d : SlogTx) (ctx : Ctx) (query : String)
    (args : List GoAny) : Option ((Option SqlResult × Err) × List Record) :=
  match d.tx with
  | none => none
  | some t =>
    match t.execContext with
    | none => some ((none, some "Tx.ExecContext is not supported"), [])
    | some drv =>
      let lrec := d.handler.Log ctx "ExecContext"
        [Attr.mk "id" (AttrVal.str d.id), Attr.mk "query" (AttrVal.str query),
         Attr.mk "args" (AttrVal.list args)]
      let r := drv ctx query args
      (d.handler.LogError ctx "ExecContext" r.2).map
        (fun p => ((r.1, p.2), lrec :: p.1))

/-- `SlogTx.QueryContext`: same optional-capability pattern as
`SlogTx.ExecContext`. -/
def SlogTx.QueryContext (d : SlogTx) (ctx : Ctx) (query : String)
    (args : List GoAny) : Option ((Option Rows × Err) × List Record) :=
  match d.tx with
  | none => none
  | some t =>
    match t.queryContext with
    | none => some ((none, some "Tx.QueryContext is not supported"), [])
    | some drv =>
      let lrec := d.handler.Log ctx "QueryContext"
        [Attr.mk "id" (AttrVal.str d.id), Attr.mk "query" (AttrVal.str query),
         Attr.mk "args" (AttrVal.list args)]
      let r := drv ctx query args
      (d.handler.LogError ctx "QueryContext" r.2).map
        (fun p => ((r.1, p.2), lrec :: p.1))

/-- `SlogTx.Commit`: log the event name and id using the retained creation
context; delegate; pass the error through `LogError`. -/
def SlogTx.Commit (d : SlogTx) : Option (Err × List Record) :=
  let lrec := d.handler.Log d.ctx "Commit" [Attr.mk "id" (AttrVal.str d.id)]
  match d.tx with
  | none => none
  | some t =>
    (d.handler.LogError d.ctx "Commit" t.commit).map (fun p => (p.2, lrec :: p.1))

/-- `SlogTx.Rollback`: same pattern as `Commit`. -/
def SlogTx.Rollback (d : SlogTx) : Option (Err × List Record) :=
  let lrec := d.handler.Log d.ctx "Rollback" [Attr.mk "id" (AttrVal.str d.id)]
  match d.tx with
  | none => none
  | some t =>
    (d.handler.LogError d.ctx "Rollback" t.rollback).map (fun p => (p.2, lrec :: p.1))

/-- Enumeration of the exported configuration surface of option.go: one
constructor per `Setting`-returning function. -/
inductive SettingSpec where
  | withDefaultLevel (level : Int)
  | withErrorLevel (level : Int)
  | withErrorOn
  | withFilter (filter : FilterAttrs)
  | withTrace (trace : TraceFunc)
  | withLogger (logger : Option String)

/-- Interpretation of a `SettingSpec` as the `Setting` the corresponding
option.go function returns. -/
def SettingSpec.interp : SettingSpec → Setting
  | .withDefaultLevel level => WithDefaultLevel level
  | .withErrorLevel level => WithErrorLevel level
  | .withErrorOn => WithError
  | .withFilter filter => WithFilter filter
  | .withTrace trace => WithTrace trace
  | .withLogger logger => WithLogger logger

/-! ### Characterization lemmas -/

theorem resolveLogger_handleError (o : Opt) :
    (resolveLogger o).handleError = o.handleError := by
  unfold resolveLogger; split <;> rfl

theorem resolveLogger_level (o : Opt) : (resolveLogger o).level = o.level := by
  unfold resolveLogger; split <;> rfl

theorem resolveLogger_errorLevel (o : Opt) :
    (resolveLogger o).errorLevel = o.errorLevel := by
  unfold resolveLogger; split <;> rfl

theorem resolveLogger_filter (o : Opt) : (resolveLogger o).filter = o.filter := by
  unfold resolveLogger; split <;> rfl

theorem resolveLogger_trace (o : Opt) : (resolveLogger o).trace = o.trace := by
  unfold resolveLogger; split <;> rfl

/-- The resolved logger name a handler built from `o` writes to. -/
def loggerName (o : Opt) : String :=
  (resolveLogger o).logger.getD "default"

/-- The records `LogError` of a `makeHandle`-built handler emits: one
error-level record when error handling is on and the error is non-nil,
none otherwise.  The attribute list is the filter applied to the single
`error` attribute — the captured base attribute list is empty. -/
def errRecords (o : Opt) (ctx : Ctx) (msg : String) (e : Err) : List Record :=
  if o.handleError then
    match e with
    | some s =>
        [{ logger := loggerName o, level := o.errorLevel, msg := msg,
           attrs := o.filter ctx [Attr.mk "error" (AttrVal.err s)] }]
    | none => []
  else []

theorem withAttrs_Log (h : Handler) (as : List Attr) (ctx : Ctx) (msg : String)
    (attrs : List Attr) : (h.withAttrs as).Log ctx msg attrs = h.Log ctx msg attrs := rfl

theorem withAttrs_LogError (h : Handler) (as : List Attr) (ctx : Ctx) (msg : String)
    (e : Err) : (h.withAttrs as).LogError ctx msg e = h.LogError ctx msg e := rfl

theorem withAttrs_WithTrace (h : Handler) (as : List Attr) (ctx : Ctx) :
    (h.withAttrs as).WithTrace ctx = h.WithTrace ctx := rfl

theorem makeHandle_trace (o : Opt) : (makeHandle o).1.trace = o.trace := by
  unfold makeHandle
  dsimp only
  exact resolveLogger_trace o

theorem makeHandle_WithTrace (o : Opt) (ctx : Ctx) :
    (makeHandle o).1.WithTrace ctx = o.trace ctx := by
  unfold Handler.WithTrace
  rw [makeHandle_trace]

theorem makeHandle_Log (o : Opt) (ctx : Ctx) (msg : String) (attrs : List Attr) :
    (makeHandle o).1.Log ctx msg attrs =
      { logger := loggerName o, level := o.level, msg := msg,
        attrs := o.filter ctx attrs } := by
  unfold makeHandle Handler.Log loggerName
  simp [resolveLogger_level, resolveLogger_filter]

theorem makeHandle_LogError (o : Opt) (ctx : Ctx) (msg : String) (e : Err) :
    (makeHandle o).1.LogError ctx msg e = some (errRecords o ctx msg e, e) := by
  unfold makeHandle Handler.LogError errRecords errorLog loggerName
  simp only [resolveLogger_handleError, resolveLogger_errorLevel, resolveLogger_filter]
  rcases h : o.handleError with _ | _ <;> cases e <;> simp [h]

/-! ### Concrete fixtures

Each fixture decorator below is built by an independent `New` call from
the pristine package default (as a program whose first construction it is
would observe it). -/

/-- A wrapped transaction on which every operation succeeds and both
optional capabilities are present. -/
def okTx : Tx where
  exec := fun _ _ _ _ => none
  query := fun _ _ _ _ => none
  commit := none
  rollback := none
  execContext := some (fun _ _ _ => (some "result", none))
  queryContext := some (fun _ _ _ => (some "rows", none))

/-- `okTx` with a failing `Commit`. -/
def failCommitTx : Tx := { okTx with commit := some "commit failed" }

/-- A wrapped driver whose operations succeed, handing out the given
transaction, with all optional capabilities present. -/
def baseDriver (t : Tx) : Driver where
  exec := fun _ _ _ _ => none
  query := fun _ _ _ _ => none
  tx := fun _ => (some t, none)
  close := none
  dialect := "sqlite3"
  execContext := some (fun _ _ _ => (some "result", none))
  queryContext := some (fun _ _ _ => (some "rows", none))
  beginTx := some (fun _ _ => (some t, none))

def drv0 : Driver := baseDriver okTx

def drvCommitFail : Driver := baseDriver failCommitTx

/-- `drv0` with a failing `Exec`. -/
def drvExecFail : Driver :=
  { drv0 with exec := fun _ _ _ _ => some "constraint violation" }

/-- `drv0` whose `BeginTx` capability is present but fails. -/
def drvBeginFail : Driver :=
  { drv0 with beginTx := some (fun _ _ => (none, some "begin failed")) }

/-- `drv0` with none of the optional capabilities. -/
def drvNoCaps : Driver :=
  { drv0 with execContext := none, queryContext := none, beginTx := none }

/-- `drv0` whose `Tx` fails. -/
def drvTxFail : Driver := { drv0 with tx := fun _ => (none, some "tx failed") }

/-- Decorated `drv0` under the default configuration. -/
def d0 : SlogDriver := (New defaultOption drv0 []).1

/-- Decorated `drvCommitFail` under the default configuration. -/
def dCommitFail : SlogDriver := (New defaultOption drvCommitFail []).1

/-- Decorated `drvExecFail` under the default configuration. -/
def dExecFail : SlogDriver := (New defaultOption drvExecFail []).1

/-- Decorated `drvBeginFail` under the default configuration. -/
def dBeginFail : SlogDriver := (New defaultOption drvBeginFail []).1

/-- Decorated `drvNoCaps` under the default configuration. -/
def dNoCaps : SlogDriver := (New defaultOption drvNoCaps []).1

/-- Decorated `drvTxFail` under the default configuration. -/
def dTxFail : SlogDriver := (New defaultOption drvTxFail []).1

theorem settingsApply_nil (o : Opt) : settingsApply o [] = o := rfl

theorem settingsApply_cons (o : Opt) (s : Setting) (ss : List Setting) :
    settingsApply o (s :: ss) = settingsApply (s o) ss := rfl

/-! ### Claims -/

/-- C1: for every configuration (error logging enabled or disabled), every
message and every error value (nil or non-nil), `LogError` on a
`makeHandle`-built handler — including any handler derived from it with
`with` — returns exactly that error value, whether or not an error record
was emitted (the call never panics, and the second component of its result
is the input error unchanged). -/
theorem C1_logError_identity_pass_through (o : Opt) (as : List Attr) (ctx : Ctx)
    (msg : String) (e : Err) :
    (∃ recs, (makeHandle o).1.LogError ctx msg e = some (recs, e)) ∧
    (∃ recs, ((makeHandle o).1.withAttrs as).LogError ctx msg e = some (recs, e)) := by
  refine ⟨⟨errRecords o ctx msg e, makeHandle_LogError o ctx msg e⟩,
          ⟨errRecords o ctx msg e, ?_⟩⟩
  rw [withAttrs_LogError]
  exact makeHandle_LogError o ctx msg e

/-- C2, counterexample: the claim says a record emitted by `Log` carries
`filter(ctx, baseAttrs ++ callAttrs)` — which is exactly what the source's
own `Handler.Filter` computes.  For the driver decorator's handler
(derived with base attribute `database=driver` under the default identity
filter), the record actually emitted by `Log` carries only the call-site
attributes: the `log` closure captures the `makeHandle`-time handler,
whose base attribute list is empty, so the bound base attributes are
dropped. -/
theorem C2_counterexample :
    ¬ ((((makeHandle defaultOption).1.withAttrs
            [Attr.mk "database" (AttrVal.str "driver")]).Log 0 "Exec"
          [Attr.mk "query" (AttrVal.str "SELECT 1")]).attrs =
        ((makeHandle defaultOption).1.withAttrs
            [Attr.mk "database" (AttrVal.str "driver")]).Filter 0
          [Attr.mk "query" (AttrVal.str "SELECT 1")]) := by
  decide

/-- C2, amended: every record emitted by `Log` on a handler derived (with
any base attribute list) from a `makeHandle`-built handler carries the
attribute list `filter(ctx, callAttrs)` — the filter applied to the
call-site attributes only.  The derived handler's bound base attributes do
not appear, because the `log` closure captures the original `makeHandle`
handler, whose base attribute list is empty. -/
theorem C2_log_attrs_amended (o : Opt) (as : List Attr) (ctx : Ctx) (msg : String)
    (callAttrs : List Attr) :
    (((makeHandle o).1.withAttrs as).Log ctx msg callAttrs).attrs =
      o.filter ctx callAttrs := by
  rw [withAttrs_Log, makeHandle_Log]

/-- C5, failing input evaluated: the initial package default level is info
(0); constructing one decorated driver with the override
`WithDefaultLevel (-4)` leaves the package-level `defaultOption` (threaded
here as the second component of `New`) with level -4, because
`settings.Apply(&defaultOption, ss)` writes through the pointer to the
package global; a later construction with no overrides therefore logs at
level -4 instead of the default info. -/
theorem C5_overrides_leak_into_later_constructions :
    defaultOption.level = 0 ∧
    ((New defaultOption drv0 [WithDefaultLevel (-4)]).2).level = -4 ∧
    ((New (New defaultOption drv0 [WithDefaultLevel (-4)]).2 drv0 []).1.handler.Log
        0 "ping" []).level = -4 := by
  refine ⟨rfl, rfl, rfl⟩

/-- C6: (a) no sequence of configuration-surface operations can disable
error logging — starting from the package default (error logging on),
every reachable configuration still has `handleError = true`, because
`WithError` takes no argument and always enables, and no other setting
touches the flag; (b) on a configuration whose `handleError` flag is
false, `LogError` of the `makeHandle`-built handler emits no record and
returns the error unchanged. -/
theorem C6_error_logging_toggle :
    (∀ specs : List SettingSpec,
        (settingsApply defaultOption (specs.map SettingSpec.interp)).handleError = true) ∧
    (∀ o : Opt, o.handleError = false → ∀ (ctx : Ctx) (msg : String) (e : Err),
        (makeHandle o).1.LogError ctx msg e = some ([], e)) := by
  constructor
  · have key : ∀ (s : SettingSpec) (o : Opt), o.handleError = true →
        (SettingSpec.interp s o).handleError = true := by
      intro s o ho
      cases s <;>
        simp [SettingSpec.interp, WithDefaultLevel, WithErrorLevel, WithError,
          WithFilter, WithTrace, WithLogger, ho]
    have inv : ∀ (l : List SettingSpec) (o : Opt), o.handleError = true →
        (settingsApply o (l.map SettingSpec.interp)).handleError = true := by
      intro l
      induction l with
      | nil => intro o ho; simpa [settingsApply_nil] using ho
      | cons s t ih =>
        intro o ho
        rw [List.map_cons, settingsApply_cons]
        exact ih (SettingSpec.interp s o) (key s o ho)
    exact fun specs => inv specs defaultOption rfl
  · intro o ho ctx msg e
    rw [makeHandle_LogError]
    simp [errRecords, ho]

/-- C6, witness: applying the only error-logging toggle of the surface
still leaves error logging on; and on a configuration with the flag
forced off, `LogError` at a concrete non-nil error emits nothing and
returns it unchanged. -/
theorem C6_witness :
    (settingsApply defaultOption
        [SettingSpec.interp SettingSpec.withErrorOn]).handleError = true ∧
    (makeHandle { defaultOption with handleError := false }).1.LogError 0 "Exec"
        (some "boom") = some ([], some "boom") := by
  constructor
  · simpa using C6_error_logging_toggle.1 [SettingSpec.withErrorOn]
  · exact C6_error_logging_toggle.2 { defaultOption with handleError := false } rfl
      0 "Exec" (some "boom")

/-- C9: `with` returns a handler whose base attribute list is exactly the
given one (a replacement, not an append) and which shares the parent's
sink and configuration (logger, filter, trace, and the resolved log /
error closures); the parent value is not touched (the Go method copies the
struct, and in this pure embedding the parent is a distinct unchanged
value by construction). -/
theorem C9_with_replaces_attrs_shares_rest (h : Handler) (as : List Attr) :
    (h.withAttrs as).attrs = as ∧ (h.withAttrs as).logger = h.logger ∧
    (h.withAttrs as).filter = h.filter ∧ (h.withAttrs as).trace = h.trace ∧
    (h.withAttrs as).log = h.log ∧ (h.withAttrs as).error = h.error :=
  ⟨rfl, rfl, rfl, rfl, rfl, rfl⟩

/-- C10: for every configuration — error logging enabled or disabled — the
`error` field of the `makeHandle`-built handler is non-nil (it is
pre-assigned the pass-through `errorLog` before the enabled branch may
replace it), and stays non-nil in every handler derived with `with`, so
`LogError` never invokes a nil function. -/
theorem C10_error_field_never_nil (o : Opt) (as : List Attr) :
    ((makeHandle o).1.error).isSome = true ∧
    (((makeHandle o).1.withAttrs as).error).isSome = true := by
  have h1 : ((makeHandle o).1.error).isSome = true := by
    unfold makeHandle
    dsimp only
    split <;> rfl
  exact ⟨h1, h1⟩

/-- C7: (a) when the wrapped driver's `Tx` fails, the decorator's `Tx`
returns the error immediately with zero records; (b) when the wrapped
driver's `BeginTx` capability is present but fails, the decorator passes
the error through `LogError` before returning it — on a `makeHandle`-built
handler this yields the error-record list `errRecords` (one error-level
record when error logging is on) and the unchanged error. -/
theorem C7_tx_vs_beginTx_failure_logging (o : Opt) (as : List Attr) (dr : Driver)
    (ctx : Ctx) (opts : TxOptions) (e : String) :
    (∀ d : SlogDriver, (d.dri.tx ctx).2 = some e →
        SlogDriver.Tx d ctx = ((none, some e), [])) ∧
    (∀ f t0, dr.beginTx = some f → f ctx opts = (t0, some e) →
        SlogDriver.BeginTx ⟨(makeHandle o).1.withAttrs as, dr⟩ ctx opts =
          some ((none, some e), errRecords o ctx "BeginTx" (some e))) := by
  constructor
  · intro d h
    simp [SlogDriver.Tx, h]
  · intro f t0 hb hr
    simp only [SlogDriver.BeginTx, hb, hr]
    rw [withAttrs_LogError, makeHandle_LogError]
    rfl

/-- C7, witness: the decorated failing-`Tx` driver returns the error with
no records; the decorated failing-`BeginTx` driver returns the error with
exactly the one error-level record `logError` emits under the default
configuration. -/
theorem C7_witness :
    SlogDriver.Tx dTxFail 0 = ((none, some "tx failed"), []) ∧
    SlogDriver.BeginTx dBeginFail 0 none =
      some ((none, some "begin failed"),
        [{ logger := "default", level := 8, msg := "BeginTx",
           attrs := [Attr.mk "error" (AttrVal.err "begin failed")] }]) := by
  constructor
  · exact (C7_tx_vs_beginTx_failure_logging defaultOption [] drvTxFail 0 none
      "tx failed").1 dTxFail rfl
  · have h := (C7_tx_vs_beginTx_failure_logging defaultOption
        [Attr.mk "database" (AttrVal.str "driver")] drvBeginFail 0 none
        "begin failed").2 (fun _ _ => (none, some "begin failed")) none rfl rfl
    have h' : SlogDriver.BeginTx dBeginFail 0 none = _ := h
    rw [h']
    rfl

/-- C8: every mandatory operation (driver `Exec` / `Query`, transaction
`Exec` / `Query`) on a decorator whose handler derives from a
`makeHandle`-built handler emits exactly one record before delegation —
the head of the emitted list, whose content depends only on the call
arguments — at the default level, with the operation name as message and
(under the default identity filter) the supplied query and arguments (plus
the transaction id for transaction operations) as attributes; the
remaining records are the post-delegation `logError` records, and the
delegate's error is returned. -/
theorem C8_mandatory_ops_log_before_delegation (o : Opt) (hf : o.filter = emptyFilter)
    (as as' : List Attr) (dr : Driver) (t : Tx) (id : String) (ctx0 ctx : Ctx)
    (q : String) (a v : GoAny) :
    (∃ erecs, SlogDriver.Exec ⟨(makeHandle o).1.withAttrs as, dr⟩ ctx q a v =
        some (dr.exec ctx q a v,
          { logger := loggerName o, level := o.level, msg := "Exec",
            attrs := [Attr.mk "query" (AttrVal.str q),
                      Attr.mk "args" (AttrVal.any a)] } :: erecs)) ∧
    (∃ erecs, SlogDriver.Query ⟨(makeHandle o).1.withAttrs as, dr⟩ ctx q a v =
        some (dr.query ctx q a v,
          { logger := loggerName o, level := o.level, msg := "Query",
            attrs := [Attr.mk "query" (AttrVal.str q),
                      Attr.mk "args" (AttrVal.any a)] } :: erecs)) ∧
    (∃ erecs, SlogTx.Exec ⟨(makeHandle o).1.withAttrs as', some t, id, ctx0⟩ ctx q a v =
        some (t.exec ctx q a v,
          { logger := loggerName o, level := o.level, msg := "Exec",
            attrs := [Attr.mk "id" (AttrVal.str id), Attr.mk "query" (AttrVal.str q),
                      Attr.mk "args" (AttrVal.any a)] } :: erecs)) ∧
    (∃ erecs, SlogTx.Query ⟨(makeHandle o).1.withAttrs as', some t, id, ctx0⟩ ctx q a v =
        some (t.query ctx q a v,
          { logger := loggerName o, level := o.level, msg := "Query",
            attrs := [Attr.mk "id" (AttrVal.str id), Attr.mk "query" (AttrVal.str q),
                      Attr.mk "args" (AttrVal.any a)] } :: erecs)) := by
  refine ⟨⟨errRecords o ctx "Exec" (dr.exec ctx q a v), ?_⟩,
          ⟨errRecords o ctx "Query" (dr.query ctx q a v), ?_⟩,
          ⟨errRecords o ctx "Exec" (t.exec ctx q a v), ?_⟩,
          ⟨errRecords o ctx "Query" (t.query ctx q a v), ?_⟩⟩ <;>
    · simp only [SlogDriver.Exec, SlogDriver.Query, SlogTx.Exec, SlogTx.Query,
        withAttrs_Log, withAttrs_LogError, makeHandle_Log, makeHandle_LogError, hf]
      simp [emptyFilter]

/-- C8, witness: on the decorated failing-`Exec` driver, the returned
error is the delegate's error and the head of the record list is the
pre-delegation info record with the operation name, query and args. -/
theorem C8_witness :
    (SlogDriver.Exec dExecFail 0 "SELECT 1" "a1" "v1").map
        (fun p => (p.1, p.2.head?)) =
      some (some "constraint violation",
        some { logger := "default", level := 0, msg := "Exec",
               attrs := [Attr.mk "query" (AttrVal.str "SELECT 1"),
                         Attr.mk "args" (AttrVal.any "a1")] }) := by
  obtain ⟨erecs, h⟩ := (C8_mandatory_ops_log_before_delegation defaultOption rfl
      [Attr.mk "database" (AttrVal.str "driver")] [] drvExecFail okTx "" 0 0
      "SELECT 1" "a1" "v1").1
  have h' : SlogDriver.Exec dExecFail 0 "SELECT 1" "a1" "v1" = _ := h
  rw [h']
  rfl

/-- C4, counterexample: the claim says a supported optional operation runs
the log-then-delegate-then-logError sequence identically to the mandatory
operations.  `BeginTx` with the capability present but failing emits
exactly one record — the post-delegation error-level record — with no
pre-delegation default-level record, while a failing mandatory operation
(`Exec`) emits two records starting with the pre-delegation info record.
The sequences are not identical. -/
theorem C4_counterexample :
    (SlogDriver.BeginTx dBeginFail 0 none).map
        (fun p => p.2.map (fun r => (r.level, r.msg, r.attrs))) =
      some [(8, "BeginTx", [Attr.mk "error" (AttrVal.err "begin failed")])] ∧
    (SlogDriver.Exec dExecFail 0 "q" "a" "v").map (fun p => p.2.length) = some 2 := by
  constructor <;> decide

/-- C4, amended: for `ExecContext` / `QueryContext` on both decorators, an
absent capability yields the capability-unsupported error with zero
records — the result is a constant, so the wrapped value is never
consulted — and a present capability runs log-then-delegate-then-logError
identically to the mandatory operations.  For `BeginTx`, an absent
capability likewise yields the unsupported error with zero records; a
present capability instead delegates first (no pre-delegation record): on
failure the error passes through `LogError` only, and on success exactly
one started record is emitted. -/
theorem C4_optional_ops_amended (d : SlogDriver) (s : SlogTx) (t : Tx)
    (ctx : Ctx) (q : String) (args : List GoAny) (opts : TxOptions) :
    (d.dri.execContext = none →
      d.ExecContext ctx q args =
        some ((none, some "Driver.ExecContext is not supported"), [])) ∧
    (d.dri.queryContext = none →
      d.QueryContext ctx q args =
        some ((none, some "Driver.QueryContext is not supported"), [])) ∧
    (d.dri.beginTx = none →
      d.BeginTx ctx opts =
        some ((none, some "Driver.BeginTx is not supported"), [])) ∧
    (s.tx = some t → t.execContext = none →
      s.ExecContext ctx q args =
        some ((none, some "Tx.ExecContext is not supported"), [])) ∧
    (s.tx = some t → t.queryContext = none →
      s.QueryContext ctx q args =
        some ((none, some "Tx.QueryContext is not supported"), [])) ∧
    (∀ f, d.dri.execContext = some f →
      d.ExecContext ctx q args =
        (d.handler.LogError ctx "ExecContext" (f ctx q args).2).map
          (fun p => (((f ctx q args).1, p.2),
            d.handler.Log ctx "ExecContext"
              [Attr.mk "query" (AttrVal.str q),
               Attr.mk "args" (AttrVal.list args)] :: p.1))) ∧
    (∀ f, d.dri.queryContext = some f →
      d.QueryContext ctx q args =
        (d.handler.LogError ctx "QueryContext" (f ctx q args).2).map
          (fun p => (((f ctx q args).1, p.2),
            d.handler.Log ctx "QueryContext"
              [Attr.mk "query" (AttrVal.str q),
               Attr.mk "args" (AttrVal.list args)] :: p.1))) ∧
    (∀ f, s.tx = some t → t.execContext = some f →
      s.ExecContext ctx q args =
        (s.handler.LogError ctx "ExecContext" (f ctx q args).2).map
          (fun p => (((f ctx q args).1, p.2),
            s.handler.Log ctx "ExecContext"
              [Attr.mk "id" (AttrVal.str s.id), Attr.mk "query" (AttrVal.str q),
               Attr.mk "args" (AttrVal.list args)] :: p.1))) ∧
    (∀ f, s.tx = some t → t.queryContext = some f →
      s.QueryContext ctx q args =
        (s.handler.LogError ctx "QueryContext" (f ctx q args).2).map
          (fun p => (((f ctx q args).1, p.2),
            s.handler.Log ctx "QueryContext"
              [Attr.mk "id" (AttrVal.str s.id), Attr.mk "query" (AttrVal.str q),
               Attr.mk "args" (AttrVal.list args)] :: p.1))) ∧
    (∀ f e t0, d.dri.beginTx = some f → f ctx opts = (t0, some e) →
      d.BeginTx ctx opts =
        (d.handler.LogError ctx "BeginTx" (some e)).map
          (fun p => ((none, p.2), p.1))) ∧
    (∀ f t0, d.dri.beginTx = some f → f ctx opts = (t0, none) →
      d.BeginTx ctx opts =
        some ((some { handler := d.handler.withAttrs
                        [Attr.mk "database" (AttrVal.str "tx")],
                      tx := t0, id := d.handler.WithTrace ctx, ctx := ctx }, none),
          [d.handler.Log ctx "BeginTx started"
             [Attr.mk "id" (AttrVal.str (d.handler.WithTrace ctx))]])) := by
  refine ⟨?_, ?_, ?_, ?_, ?_, ?_, ?_, ?_, ?_, ?_, ?_⟩
  · intro h; simp [SlogDriver.ExecContext, h]
  · intro h; simp [SlogDriver.QueryContext, h]
  · intro h; simp [SlogDriver.BeginTx, h]
  · intro hs h; simp [SlogTx.ExecContext, hs, h]
  · intro hs h; simp [SlogTx.QueryContext, hs, h]
  · intro f h; simp [SlogDriver.ExecContext, h]
  · intro f h; simp [SlogDriver.QueryContext, h]
  · intro f hs h; simp [SlogTx.ExecContext, hs, h]
  · intro f hs h; simp [SlogTx.QueryContext, hs, h]
  · intro f e t0 hb hr; simp [SlogDriver.BeginTx, hb, hr]
  · intro f t0 hb hr; simp [SlogDriver.BeginTx, hb, hr]

/-- C4, witness: on the decorated driver with no optional capabilities,
`BeginTx` and `ExecContext` return the capability-unsupported errors with
zero records; on the fully capable decorated driver, `ExecContext`
succeeds with one record. -/
theorem C4_witness :
    SlogDriver.BeginTx dNoCaps 0 none =
      some ((none, some "Driver.BeginTx is not supported"), []) ∧
    SlogDriver.ExecContext dNoCaps 0 "q" [] =
      some ((none, some "Driver.ExecContext is not supported"), []) ∧
    (SlogDriver.ExecContext d0 0 "q" []).map (fun p => (p.1, p.2.length)) =
      some ((some "result", none), 1) := by
  obtain ⟨h1, -, h3, -, -, h6, -⟩ :=
    C4_optional_ops_amended dNoCaps ⟨dNoCaps.handler, some okTx, "", 0⟩ okTx 0 "q" [] none
  refine ⟨h3 rfl, h1 rfl, ?_⟩
  obtain ⟨-, -, -, -, -, h6', -⟩ :=
    C4_optional_ops_amended d0 ⟨d0.handler, some okTx, "", 0⟩ okTx 0 "q" [] none
  have h := h6' (fun _ _ _ => (some "result", none)) rfl
  rw [h]
  rfl

/-- C3, counterexample: on the default configuration, commit a transaction
whose underlying `Commit` fails.  The `Commit` call emits two records, and
not every one of them carries the transaction's trace id: the
post-delegation error record carries only the `error` attribute (the
`error` closure builds its attribute list from the single error attribute
and the captured empty base attributes; no `id` attribute is added). -/
theorem C3_counterexample :
    ((SlogDriver.Tx dCommitFail 0).1.1.map (fun stx =>
      (stx.Commit).map (fun p =>
        (p.2.length,
         p.2.all (fun r => r.attrs.any (fun a =>
           a.key == "id" && a.val == AttrVal.str stx.id)))))) =
      some (some (2, false)) := by
  decide

/-- C3, amended: for a transaction decorator created by `Tx` under the
default identity filter, the trace id is generated exactly once at
creation (`stx.id = o.trace ctx`), the started record carries it, every
default-level record emitted by the transaction's operations (Exec, Query,
present-capability ExecContext / QueryContext, Commit, Rollback) carries
that same id as its `id` attribute, and no operation ever consults the
trace function again (replacing it changes nothing).  Error records
emitted through `logError` are the exception the counterexample forces:
they carry only the `error` attribute, not the trace id. -/
theorem C3_trace_id_amended (o : Opt) (hf : o.filter = emptyFilter) (as : List Attr)
    (dr : Driver) (ctx : Ctx) (t : Tx) (htx : dr.tx ctx = (some t, none)) :
    ∃ stx : SlogTx,
      SlogDriver.Tx ⟨(makeHandle o).1.withAttrs as, dr⟩ ctx =
        ((some stx, none),
          [{ logger := loggerName o, level := o.level, msg := "Tx started",
             attrs := [Attr.mk "id" (AttrVal.str stx.id)] }]) ∧
      stx.id = o.trace ctx ∧
      stx.tx = some t ∧
      (∀ ctx' q a v, ∃ erecs, stx.Exec ctx' q a v =
          some (t.exec ctx' q a v,
            { logger := loggerName o, level := o.level, msg := "Exec",
              attrs := [Attr.mk "id" (AttrVal.str stx.id),
                        Attr.mk "query" (AttrVal.str q),
                        Attr.mk "args" (AttrVal.any a)] } :: erecs)) ∧
      (∀ ctx' q a v, ∃ erecs, stx.Query ctx' q a v =
          some (t.query ctx' q a v,
            { logger := loggerName o, level := o.level, msg := "Query",
              attrs := [Attr.mk "id" (AttrVal.str stx.id),
                        Attr.mk "query" (AttrVal.str q),
                        Attr.mk "args" (AttrVal.any a)] } :: erecs)) ∧
      (∃ erecs, stx.Commit =
          some (t.commit,
            { logger := loggerName o, level := o.level, msg := "Commit",
              attrs := [Attr.mk "id" (AttrVal.str stx.id)] } :: erecs)) ∧
      (∃ erecs, stx.Rollback =
          some (t.rollback,
            { logger := loggerName o, level := o.level, msg := "Rollback",
              attrs := [Attr.mk "id" (AttrVal.str stx.id)] } :: erecs)) ∧
      (∀ f, t.execContext = some f → ∀ ctx' q args, ∃ erecs,
          stx.ExecContext ctx' q args =
            some (((f ctx' q args).1, (f ctx' q args).2),
              { logger := loggerName o, level := o.level, msg := "ExecContext",
                attrs := [Attr.mk "id" (AttrVal.str stx.id),
                          Attr.mk "query" (AttrVal.str q),
                          Attr.mk "args" (AttrVal.list args)] } :: erecs)) ∧
      (∀ f, t.queryContext = some f → ∀ ctx' q args, ∃ erecs,
          stx.QueryContext ctx' q args =
            some (((f ctx' q args).1, (f ctx' q args).2),
              { logger := loggerName o, level := o.level, msg := "QueryContext",
                attrs := [Attr.mk "id" (AttrVal.str stx.id),
                          Attr.mk "query" (AttrVal.str q),
                          Attr.mk "args" (AttrVal.list args)] } :: erecs)) ∧
      (∀ tr : TraceFunc,
        (∀ ctx' q a v, SlogTx.Exec
            { stx with handler := { stx.handler with trace := tr } } ctx' q a v =
          stx.Exec ctx' q a v) ∧
        (∀ ctx' q a v, SlogTx.Query
            { stx with handler := { stx.handler with trace := tr } } ctx' q a v =
          stx.Query ctx' q a v) ∧
        SlogTx.Commit { stx with handler := { stx.handler with trace := tr } } =
          stx.Commit ∧
        SlogTx.Rollback { stx with handler := { stx.handler with trace := tr } } =
          stx.Rollback ∧
        (∀ ctx' q args, SlogTx.ExecContext
            { stx with handler := { stx.handler with trace := tr } } ctx' q args =
          stx.ExecContext ctx' q args) ∧
        (∀ ctx' q args, SlogTx.QueryContext
            { stx with handler := { stx.handler with trace := tr } } ctx' q args =
          stx.QueryContext ctx' q args)) := by
  refine ⟨{ handler := ((makeHandle o).1.withAttrs as).withAttrs
              [Attr.mk "database" (AttrVal.str "tx")],
            tx := some t, id := o.trace ctx, ctx := ctx },
          ?_, rfl, rfl, ?_, ?_, ?_, ?_, ?_, ?_, ?_⟩
  · simp only [SlogDriver.Tx, htx, withAttrs_WithTrace, makeHandle_WithTrace,
      withAttrs_Log, makeHandle_Log, hf]
    simp [emptyFilter]
  · intro ctx' q a v
    refine ⟨errRecords o ctx' "Exec" (t.exec ctx' q a v), ?_⟩
    simp only [SlogTx.Exec, withAttrs_Log, withAttrs_LogError, makeHandle_Log,
      makeHandle_LogError, hf]
    simp [emptyFilter]
  · intro ctx' q a v
    refine ⟨errRecords o ctx' "Query" (t.query ctx' q a v), ?_⟩
    simp only [SlogTx.Query, withAttrs_Log, withAttrs_LogError, makeHandle_Log,
      makeHandle_LogError, hf]
    simp [emptyFilter]
  · refine ⟨errRecords o ctx "Commit" t.commit, ?_⟩
    simp only [SlogTx.Commit, withAttrs_Log, withAttrs_LogError, makeHandle_Log,
      makeHandle_LogError, hf]
    simp [emptyFilter]
  · refine ⟨errRecords o ctx "Rollback" t.rollback, ?_⟩
    simp only [SlogTx.Rollback, withAttrs_Log, withAttrs_LogError, makeHandle_Log,
      makeHandle_LogError, hf]
    simp [emptyFilter]
  · intro f hcap ctx' q args
    refine ⟨errRecords o ctx' "ExecContext" (f ctx' q args).2, ?_⟩
    simp only [SlogTx.ExecContext, hcap, withAttrs_Log, withAttrs_LogError,
      makeHandle_Log, makeHandle_LogError, hf]
    simp [emptyFilter]
  · intro f hcap ctx' q args
    refine ⟨errRecords o ctx' "QueryContext" (f ctx' q args).2, ?_⟩
    simp only [SlogTx.QueryContext, hcap, withAttrs_Log, withAttrs_LogError,
      makeHandle_Log, makeHandle_LogError, hf]
    simp [emptyFilter]
  · intro tr
    exact ⟨fun _ _ _ _ => rfl, fun _ _ _ _ => rfl, rfl, rfl,
           fun _ _ _ => rfl, fun _ _ _ => rfl⟩

/-- C3, witness: creating a transaction on the decorated failing-commit
driver succeeds, returns no error, and emits exactly one started record. -/
theorem C3_witness :
    (SlogDriver.Tx dCommitFail 0).1.2 = none ∧
    (SlogDriver.Tx dCommitFail 0).2.map (fun r => r.msg) = ["Tx started"] := by
  obtain ⟨stx, h1, -⟩ := C3_trace_id_amended defaultOption rfl
      [Attr.mk "database" (AttrVal.str "driver")] drvCommitFail 0 failCommitTx rfl
  have h1' : SlogDriver.Tx dCommitFail 0 = _ := h1
  rw [h1']
  exact ⟨rfl, rfl⟩

end Entslog
